import Mathlib

/-!
Verification of the `python-tools` repository: a shallow embedding of
`tool_mysql.py` (SQL statement builders), `tool_mongo.py` (duplicate-key
upsert executors), `tool_redis.py` (resilient key-value client) and
`tool_rabbitmq.py` (bounded broker reconnect), together with theorems
settling the specification claims.

Conventions of the embedding:
- Python scalar values become the inductive `PyVal`; machine behaviour of
  the external database drivers is modelled only where a claim needs it,
  and each such model is marked in its doc comment.
- Python functions that can raise become `Except PyErr` / `Option`
  valued; a Python method that falls off the end returns `none`-like
  values exactly where the source returns `None`.
- All definitions are executable so claims can be evaluated on concrete
  inputs by `decide` / `rfl`.
-/

set_option maxRecDepth 10000

/-- Python scalar values manipulated by the wrappers.  Composite values
(`list`/`dict`, JSON-encoded by `dumps_json`) are outside the claims and
are omitted; `vDate` stands for `datetime.date`/`datetime.time` objects,
carrying the text `str(value)` would produce. -/
inductive PyVal where
  | vNone
  | vStr (s : String)
  | vInt (n : Int)
  | vBool (b : Bool)
  | vDate (s : String)
deriving DecidableEq

/-- Errors surfaced by the embedded Python code. -/
inductive PyErr where
  | conflictResolution
  | keyError
  | typeError
  | duplicateKey (errmsg : String)
deriving DecidableEq

instance {ε α : Type} [DecidableEq ε] [DecidableEq α] : DecidableEq (Except ε α)
  | Except.ok a, Except.ok b =>
    if h : a = b then Decidable.isTrue (by rw [h])
    else Decidable.isFalse (by intro hc; cases hc; exact h rfl)
  | Except.ok _, Except.error _ => Decidable.isFalse (by intro hc; cases hc)
  | Except.error _, Except.ok _ => Decidable.isFalse (by intro hc; cases hc)
  | Except.error a, Except.error b =>
    if h : a = b then Decidable.isTrue (by rw [h])
    else Decidable.isFalse (by intro hc; cases hc; exact h rfl)

/-- ASCII whitespace stripped by Python `str.strip()`. -/
def is_py_space (c : Char) : Bool :=
  c = ' ' || c = '\t' || c = '\n' || c = '\r' || c = Char.ofNat 11 || c = Char.ofNat 12

/-- Python `str.strip()`: drop leading and trailing whitespace. -/
def py_strip (s : String) : String :=
  String.mk (((s.data.dropWhile is_py_space).reverse.dropWhile is_py_space).reverse)

/-- The single-quote character, kept as a named constant. -/
def squote : Char := Char.ofNat 39

/-- Escaping applied by Python `repr` inside a single-quoted string:
backslashes and single quotes get a leading backslash.  (Control
characters, which Python renders as `\xNN`, do not occur in the claims
and are left unchanged by this model.) -/
def py_escape (c : Char) : List Char :=
  if c = squote || c = '\\' then ['\\', c] else [c]

/-- Python `repr` of a `str`: double quotes are chosen when the string
contains a single quote but no double quote, otherwise single quotes
with escaping. -/
def py_repr_str (s : String) : String :=
  if s.data.contains squote && !(s.data.contains '"') then "\"" ++ s ++ "\""
  else String.singleton squote ++ String.mk (s.data.map py_escape).flatten ++ String.singleton squote

/-- Python `repr` of the scalar values as they appear inside
`str(tuple(values))` in `list2str` (`tool_mysql.py`). -/
def py_repr : PyVal → String
  | PyVal.vNone => "None"
  | PyVal.vStr s => py_repr_str s
  | PyVal.vInt n => toString n
  | PyVal.vBool b => if b then "True" else "False"
  | PyVal.vDate s => py_repr_str s

/-- Join a list of strings with a separator (Python `sep.join(...)`). -/
def join_sep (sep : String) : List String → String
  | [] => ""
  | [x] => x
  | x :: xs => x ++ sep ++ join_sep sep xs

/-- `list2str` (`tool_mysql.py` lines 122-125): `str(tuple(datas))`
followed by the regex that removes the trailing comma of a 1-tuple.  For
already-rendered items the net effect is parenthesised comma-joining. -/
def py_tuple_str (items : List String) : String :=
  "(" ++ join_sep ", " items ++ ")"

/-- Character-level replacement of every occurrence of `pat` (Python
`str.replace`).  The fuel argument is instantiated with the text length,
which suffices for any non-empty pattern. -/
def replace_chars (pat rep : List Char) : Nat → List Char → List Char
  | _, [] => []
  | 0, l => l
  | Nat.succ fuel, c :: cs =>
    if pat.isPrefixOf (c :: cs) then rep ++ replace_chars pat rep fuel ((c :: cs).drop pat.length)
    else c :: replace_chars pat rep fuel cs

/-- Python `s.replace(pat, rep)`. -/
def py_replace (s pat rep : String) : String :=
  String.mk (replace_chars pat.data rep.data s.data.length s.data)

/-- `format_sql_value` (`tool_mysql.py` lines 106-119): strings are
stripped, dates stringified, booleans turned into `0`/`1` integers;
`None` and integers pass through.  (The `list`/`dict` JSON branch is
outside the claims.) -/
def format_sql_value : PyVal → PyVal
  | PyVal.vStr s => PyVal.vStr (py_strip s)
  | PyVal.vDate s => PyVal.vStr s
  | PyVal.vBool b => PyVal.vInt (if b then 1 else 0)
  | v => v

/-- `make_insert_sql` (`tool_mysql.py` lines 128-166).  A record is an
association list (Python dict preserves insertion order).  The rendered
keys go through `list2str(..).replace(squote, "")`, the values through
`list2str`, and the final SQL text through `.replace("None", "null")`
applied to the whole statement. -/
def make_insert_sql (table : String) (data : List (String × PyVal)) (auto_update : Bool)
    (update_columns : List String) (insert_ignore : Bool) : String :=
  let keys_str := py_tuple_str (data.map fun p => "`" ++ p.1 ++ "`")
  let values_str := py_tuple_str (data.map fun p => py_repr (format_sql_value p.2))
  let head := if insert_ignore then "insert ignore" else "insert"
  let sql :=
    if update_columns ≠ [] then
      head ++ " into `" ++ table ++ "` " ++ keys_str ++ " values " ++ values_str ++
        " on duplicate key update " ++
        join_sep ", " (update_columns.map fun k => k ++ "=values(" ++ k ++ ")")
    else if auto_update then
      "replace into `" ++ table ++ "` " ++ keys_str ++ " values " ++ values_str
    else
      head ++ " into `" ++ table ++ "` " ++ keys_str ++ " values " ++ values_str
  py_replace sql "None" "null"

/-- The key multiset `[key for data in datas for key in data]` of
`make_batch_sql` before it is piped through `set`. -/
def all_keys (datas : List (List (String × PyVal))) : List String :=
  (datas.map (fun d => d.map Prod.fst)).flatten

/-- The column list `list(set([...]))` of `make_batch_sql`.  CPython
iterates a `set` of strings in a hash-dependent order, so the embedding
takes the enumeration order as a parameter; `IsSetOrder` below says
which parameters are admissible. -/
def batch_keys (set_order : List String → List String)
    (datas : List (List (String × PyVal))) : List String :=
  set_order (all_keys datas)

/-- Admissible models of CPython `list(set(l))`: any enumeration of the
distinct elements of `l`, i.e. any permutation of `l.dedup`. -/
def IsSetOrder (f : List String → List String) : Prop :=
  ∀ l : List String, (f l).Perm l.dedup

/-- One row of bound values in `make_batch_sql`: `data.get(key)` (which
is `None` for a missing key) passed through `format_sql_value`. -/
def batch_row (keys : List String) (data : List (String × PyVal)) : List PyVal :=
  keys.map fun k => format_sql_value ((data.lookup k).getD PyVal.vNone)

/-- The `ON DUPLICATE KEY UPDATE` clause of `make_batch_sql` when
explicit `update_columns_value` are supplied: columns and values are
paired positionally by `zip`, which silently truncates to the shorter
list. -/
def batch_update_clause (update_columns update_columns_value : List String) : String :=
  join_sep ", " ((update_columns.zip update_columns_value).map fun p => "`" ++ p.1 ++ "`=" ++ p.2)

/-- The statement text of `make_batch_sql` for a given column list:
placeholders are `["%s"] * len(keys)`, rendered like the keys through
`list2str` with quotes removed. -/
def batch_sql_text (keys : List String) (table : String) (auto_update : Bool)
    (update_columns : List String) (update_columns_value : List String) : String :=
  let keys_str := py_tuple_str (keys.map fun k => "`" ++ k ++ "`")
  let ph_str := py_tuple_str (keys.map fun _ => "%s")
  if update_columns ≠ [] then
    let clause :=
      if update_columns_value ≠ [] then
        batch_update_clause update_columns update_columns_value
      else
        join_sep ", " (update_columns.map fun k => "`" ++ k ++ "`=values(`" ++ k ++ "`)")
    "insert into `" ++ table ++ "` " ++ keys_str ++ " values " ++ ph_str ++
      " on duplicate key update " ++ clause
  else if auto_update then
    "replace into `" ++ table ++ "` " ++ keys_str ++ " values " ++ ph_str
  else
    "insert ignore into `" ++ table ++ "` " ++ keys_str ++ " values " ++ ph_str

/-- `make_batch_sql` (`tool_mysql.py` lines 169-232).  Returns `none`
exactly where the Python function executes `if not datas: return`
(returning `None`); otherwise `some (sql, values)` with the
parameterised statement and the row-major bound values. -/
def make_batch_sql (set_order : List String → List String) (table : String)
    (datas : List (List (String × PyVal))) (auto_update : Bool)
    (update_columns : List String) (update_columns_value : List String) :
    Option (String × List (List PyVal)) :=
  if datas = [] then none
  else
    some (batch_sql_text (batch_keys set_order datas) table auto_update
            update_columns update_columns_value,
          datas.map (batch_row (batch_keys set_order datas)))

/-- The specification's words for the column order of
`build_batch_insert`: "the union of all keys across all records (order
stable, first-seen order)".  Used to compare the source's behaviour
against the spec. -/
def spec_first_seen_keys (datas : List (List (String × PyVal))) : List String :=
  (all_keys datas).dedup

/-- `MysqlDB.add_batch_smart` (`tool_mysql.py` lines 448-457) up to the
point where control leaves the repository: `sql, datas =
make_batch_sql(...)` unpacks the builder's result (a `TypeError` when it
is `None`) and hands the pair to the driver via `add_batch`. -/
def MysqlDB.add_batch_smart (set_order : List String → List String) (table : String)
    (datas : List (List (String × PyVal))) (auto_update : Bool)
    (update_columns : List String) (update_columns_value : List String) :
    Except PyErr (String × List (List PyVal)) :=
  match make_batch_sql set_order table datas auto_update update_columns update_columns_value with
  | none => Except.error PyErr.typeError
  | some p => Except.ok p

/-- Split a character list at the first occurrence of `pat`, returning
the text before and after the occurrence; `none` when `pat` does not
occur. -/
def split_first (pat : List Char) : List Char → Option (List Char × List Char)
  | [] => if pat = [] then some ([], []) else none
  | c :: cs =>
    if pat.isPrefixOf (c :: cs) then some ([], (c :: cs).drop pat.length)
    else match split_first pat cs with
      | some (a, b) => some (c :: a, b)
      | none => none

/-- Split a character list at every occurrence of `pat`
(fuel-bounded; the fuel is instantiated with the text length, which
suffices for a non-empty pattern). -/
def split_all_fuel (pat : List Char) : Nat → List Char → List (List Char)
  | 0, l => [l]
  | Nat.succ fuel, l =>
    match split_first pat l with
    | none => [l]
    | some (a, b) => a :: split_all_fuel pat fuel b

/-- Parse a decimal digit sequence. -/
def parse_nat_digits : List Char → Option Nat
  | [] => none
  | l => l.foldl (fun acc c => match acc with
      | none => none
      | some n => if c.isDigit then some (n * 10 + (c.toNat - 48)) else none)
      (some 0)

/-- Parse an optionally-signed decimal integer. -/
def parse_int_chars : List Char → Option Int
  | '-' :: rest => (parse_nat_digits rest).map (fun n => -(n : Int))
  | l => (parse_nat_digits l).map (fun n => (n : Int))

/-- Parse one rendered scalar of a MongoDB "dup key" payload: `null`,
a double-quoted string, or an integer; anything else (for example a
boolean, a date, or a nested document) is not recognised. -/
def parse_value : List Char → Option PyVal
  | [] => none
  | c :: rest =>
    if c = '"' then
      match rest.getLast? with
      | some q => if q = '"' && rest ≠ [] then some (PyVal.vStr (String.mk rest.dropLast)) else none
      | none => none
    else if (c :: rest) = "null".data then some PyVal.vNone
    else (parse_int_chars (c :: rest)).map PyVal.vInt

/-- Parse one `column: value` pair of a "dup key" payload. -/
def parse_pair (l : List Char) : Option (String × PyVal) :=
  match split_first (": ".data) l with
  | some (k, v) => (parse_value v).map (fun pv => (String.mk k, pv))
  | none => none

/-- Parse every `column: value` pair of a "dup key" payload. -/
def parse_pairs (ls : List (List Char)) : Option (List (String × PyVal)) :=
  ls.mapM parse_pair

/-- Modelled from the spec: `MongoDB.__get_update_condition` is called
by `MongoDB.add` and `MongoDB.add_batch` (`tool_mongo.py` lines 165,
184, 244) but its definition is absent from the sources.  Per spec
sections 4.2 and 9 it parses the conflicting unique key's column/value
pairs out of the backend's duplicate-key error message text
(`... dup key: { col: value, ... }`) to build the update condition, and
a parsing failure must surface a `ConflictResolutionError` instead of an
unbounded condition; `none` here is that failure. -/
def extract_conflict_key (errmsg : String) : Option (List (String × PyVal)) :=
  match split_first ("dup key: \x7b ".data) errmsg.data with
  | none => none
  | some (_, rest) =>
    match split_first (" \x7d".data) rest with
    | none => none
    | some (body, _) => parse_pairs (split_all_fuel (", ".data) body.length body)

/-- Rendering of a scalar inside the backend's `dup key` payload
(model of the MongoDB server's error message, an external input to the
code under verification). -/
def render_key_value : PyVal → String
  | PyVal.vNone => "null"
  | PyVal.vStr s => "\"" ++ s ++ "\""
  | PyVal.vInt n => toString n
  | PyVal.vBool b => if b then "true" else "false"
  | PyVal.vDate s => "\"" ++ s ++ "\""

/-- A MongoDB document: field name to value, insertion-ordered. -/
abbrev MDoc : Type := List (String × PyVal)

/-- A MongoDB collection with one unique index, modelling the backend
the wrappers talk to: `unique_keys` are the indexed fields and `docs`
the stored documents. -/
structure MColl where
  unique_keys : List String
  docs : List MDoc
deriving DecidableEq

/-- The values a document takes on the unique index fields (a missing
field counts as `null`, as in MongoDB). -/
def key_proj (ks : List String) (d : MDoc) : List PyVal :=
  ks.map fun k => (d.lookup k).getD PyVal.vNone

/-- Model of the backend's duplicate-key error message for an insert of
`data` colliding on the unique index. -/
def mk_errmsg (ks : List String) (data : MDoc) : String :=
  "E11000 duplicate key error collection: db.coll index: key_1 dup key: \x7b " ++
    join_sep ", " (ks.map fun k => k ++ ": " ++ render_key_value ((data.lookup k).getD PyVal.vNone)) ++
    " \x7d"

/-- Model of `collection.insert_one`: fails with a `DuplicateKeyError`
carrying the backend's message when a stored document has the same
unique-key projection, otherwise appends the document. -/
def insert_one (coll : MColl) (data : MDoc) : Except String MColl :=
  if coll.docs.any (fun d => key_proj coll.unique_keys d == key_proj coll.unique_keys data) then
    Except.error (mk_errmsg coll.unique_keys data)
  else Except.ok { coll with docs := coll.docs ++ [data] }

/-- Whether a document matches a MongoDB equality condition. -/
def cond_matches (cond : List (String × PyVal)) (d : MDoc) : Bool :=
  cond.all fun p => (d.lookup p.1).getD PyVal.vNone == p.2

/-- Set one field of a document (`$set` on a single key). -/
def set_field (d : MDoc) (k : String) (v : PyVal) : MDoc :=
  if (d.lookup k).isSome then d.map (fun p => if p.1 = k then (k, v) else p)
  else d ++ [(k, v)]

/-- Apply a `$set` update document. -/
def apply_set (d : MDoc) (upd : List (String × PyVal)) : MDoc :=
  upd.foldl (fun acc p => set_field acc p.1 p.2) d

/-- Model of `collection.update_one(cond, {"$set": upd})`: the first
matching document is updated. -/
def update_docs_first (cond : List (String × PyVal)) (upd : List (String × PyVal)) :
    List MDoc → List MDoc
  | [] => []
  | d :: rest =>
    if cond_matches cond d then apply_set d upd :: rest
    else d :: update_docs_first cond upd rest

/-- Model of `collection.replace_one(cond, data)`: the first matching
document is replaced wholesale. -/
def replace_docs_first (cond : List (String × PyVal)) (data : MDoc) :
    List MDoc → List MDoc
  | [] => []
  | d :: rest =>
    if cond_matches cond d then data :: rest
    else d :: replace_docs_first cond data rest

/-- `collection.update_one` on the collection model. -/
def update_one (coll : MColl) (cond upd : List (String × PyVal)) : MColl :=
  { coll with docs := update_docs_first cond upd coll.docs }

/-- `collection.replace_one` on the collection model. -/
def replace_one (coll : MColl) (cond : List (String × PyVal)) (data : MDoc) : MColl :=
  { coll with docs := replace_docs_first cond data coll.docs }

/-- Python `{key: data[key] for key in ks}`: a missing key raises
`KeyError`. -/
def lookup_strict (data : MDoc) : List String → Except PyErr (List (String × PyVal))
  | [] => Except.ok []
  | k :: rest =>
    match data.lookup k with
    | none => Except.error PyErr.keyError
    | some v =>
      match lookup_strict data rest with
      | Except.error e => Except.error e
      | Except.ok r => Except.ok ((k, v) :: r)

/-- `MongoDB.add` (`tool_mongo.py` lines 135-193) against the collection
model.  `affect_count` is initialised to `1` and the source never
changes it, so every non-raising path returns `1`.  On a
`DuplicateKeyError` the update condition is derived from the error text
via `extract_conflict_key`; a derivation failure surfaces
`ConflictResolutionError` before any update or replace touches the
collection.  Returns the collection after the call and the Python
return value or exception. -/
def MongoDB.add (coll : MColl) (data : MDoc) (replace : Bool)
    (update_columns : List String) (update_columns_value : List PyVal)
    (insert_ignore : Bool) : MColl × Except PyErr Int :=
  match insert_one coll data with
  | Except.ok coll2 => (coll2, Except.ok 1)
  | Except.error errmsg =>
    if update_columns ≠ [] then
      match extract_conflict_key errmsg with
      | none => (coll, Except.error PyErr.conflictResolution)
      | some cond =>
        match
          (if update_columns_value ≠ [] then
            Except.ok (update_columns.zip update_columns_value)
          else lookup_strict data update_columns) with
        | Except.error e => (coll, Except.error e)
        | Except.ok doc => (update_one coll cond doc, Except.ok 1)
    else if replace then
      match extract_conflict_key errmsg with
      | none => (coll, Except.error PyErr.conflictResolution)
      | some cond => (replace_one coll cond data, Except.ok 1)
    else if !insert_ignore then (coll, Except.error (PyErr.duplicateKey errmsg))
    else (coll, Except.ok 1)

/-- One entry of the `writeErrors` payload of a `BulkWriteError`
(an input produced by the backend): the error code (11000 marks a
duplicate key), the offending document `op`, and the message text. -/
structure WriteError where
  code : Int
  op : MDoc
  errmsg : String
deriving DecidableEq

/-- The observable write operations `MongoDB.add_batch` issues while
resolving conflicts. -/
inductive MEffect where
  | updateOne (cond doc : List (String × PyVal))
  | replaceOne (cond : List (String × PyVal)) (data : MDoc)
  | logged (e : WriteError)
deriving DecidableEq

/-- `get_condition` inside `MongoDB.add_batch` (`tool_mongo.py` lines
235-248): caller-specified `condition_fields` are read from the
document with Python `data[field]` (a missing field raises `KeyError`),
otherwise the condition is derived from the error text. -/
def batch_get_condition (condition_fields : List String) (data : MDoc) (errmsg : String) :
    Except PyErr (List (String × PyVal)) :=
  if condition_fields ≠ [] then lookup_strict data condition_fields
  else
    match extract_conflict_key errmsg with
    | none => Except.error PyErr.conflictResolution
    | some cond => Except.ok cond

/-- The `for error in write_errors` loop of `MongoDB.add_batch`:
every error with code 11000 decrements the running count, resolving via
update, replace, or log-and-skip; other write errors are skipped without
aborting the loop. -/
def add_batch_loop (replace : Bool) (update_columns : List String)
    (update_columns_value : List PyVal) (condition_fields : List String)
    (count : Int) (effs : List MEffect) :
    List WriteError → Except PyErr (Int × List MEffect)
  | [] => Except.ok (count, effs)
  | e :: rest =>
    if e.code = 11000 then
      if update_columns ≠ [] then
        let doc :=
          if update_columns_value ≠ [] then update_columns.zip update_columns_value
          else update_columns.map fun k => (k, (e.op.lookup k).getD PyVal.vNone)
        match batch_get_condition condition_fields e.op e.errmsg with
        | Except.error err => Except.error err
        | Except.ok cond =>
          add_batch_loop replace update_columns update_columns_value condition_fields
            (count - 1) (effs ++ [MEffect.updateOne cond doc]) rest
      else if replace then
        match batch_get_condition condition_fields e.op e.errmsg with
        | Except.error err => Except.error err
        | Except.ok cond =>
          add_batch_loop replace update_columns update_columns_value condition_fields
            (count - 1) (effs ++ [MEffect.replaceOne cond e.op]) rest
      else
        add_batch_loop replace update_columns update_columns_value condition_fields
          (count - 1) (effs ++ [MEffect.logged e]) rest
    else
      add_batch_loop replace update_columns update_columns_value condition_fields
        count effs rest

/-- `MongoDB.add_batch` (`tool_mongo.py` lines 195-276).  The outcome of
`collection.insert_many(datas, ordered=False)` is an input from the
backend: `none` models a fully successful bulk insert, `some errs` a
`BulkWriteError` whose `details["writeErrors"]` is `errs`.  Returns the
Python return value (the net insert count) together with the conflict
resolution writes issued, or the propagated exception. -/
def MongoDB.add_batch (datas : List MDoc) (replace : Bool)
    (update_columns : List String) (update_columns_value : List PyVal)
    (condition_fields : List String) (bulk : Option (List WriteError)) :
    Except PyErr (Int × List MEffect) :=
  if datas = [] then Except.ok (0, [])
  else
    match bulk with
    | none => Except.ok ((datas.length : Int), [])
    | some errs =>
      add_batch_loop replace update_columns update_columns_value condition_fields
        (datas.length : Int) [] errs

/-- Whether the conflict resolution of one write error can derive its
update condition (the hypothesis under which `add_batch` completes
without raising): irrelevant when the error is merely logged. -/
def resolvableB (replace : Bool) (update_columns condition_fields : List String)
    (e : WriteError) : Bool :=
  if update_columns = [] ∧ replace = false then true
  else if condition_fields = [] then (extract_conflict_key e.errmsg).isSome
  else condition_fields.all fun f => (e.op.lookup f).isSome

/-- The number of duplicate-key conflicts in a `writeErrors` payload. -/
def conflict_count (errs : List WriteError) : Nat :=
  errs.countP fun e => e.code == 11000

/-- Insert-or-replace in an association list (used for writing a key's
list/set back into the store model). -/
def assoc_set {α : Type} (k : String) (v : α) : List (String × α) → List (String × α)
  | [] => [(k, v)]
  | p :: rest => if p.1 = k then (k, v) :: rest else p :: assoc_set k v rest

/-- The Redis backend state visible to the claims: the list value and
the set value stored under each key.  A set is modelled as a list of
its members; `spop` removes the first member (the backend picks a
random one — which member is chosen does not affect the counting and
emptiness properties claimed). -/
structure RStore where
  lists : List (String × List String)
  sets : List (String × List String)
deriving DecidableEq

/-- The list stored at `t` (empty when the key is absent). -/
def get_list (st : RStore) (t : String) : List String :=
  (st.lists.lookup t).getD []

/-- Store a list under `t`. -/
def put_list (st : RStore) (t : String) (l : List String) : RStore :=
  { st with lists := assoc_set t l st.lists }

/-- The set stored at `t` (empty when the key is absent). -/
def get_set (st : RStore) (t : String) : List String :=
  (st.sets.lookup t).getD []

/-- Store a set under `t`. -/
def put_set (st : RStore) (t : String) (l : List String) : RStore :=
  { st with sets := assoc_set t l st.sets }

/-- `RedisDB.lget_count` (`tool_redis.py` line 174): `llen`. -/
def RedisDB.lget_count (st : RStore) (t : String) : Nat :=
  (get_list st t).length

/-- `RedisDB.sget_count` (`tool_redis.py` line 171): `scard`. -/
def RedisDB.sget_count (st : RStore) (t : String) : Nat :=
  (get_set st t).length

/-- The three shapes `RedisDB.lpop` can return: `None` (its initial
`datas`), a bare element (`count == 1`), or the pipeline's list of
elements (`count > 1`). -/
inductive PopResult where
  | rnone
  | relem (s : String)
  | rlist (l : List String)
deriving DecidableEq

/-- The elements carried by a `PopResult`. -/
def pop_elems : PopResult → List String
  | PopResult.rnone => []
  | PopResult.relem s => [s]
  | PopResult.rlist l => l

/-- `RedisDB.lpop` (`tool_redis.py` lines 289-315): the requested count
is clamped to `llen`; a clamped count of zero returns the initial
`None`, one pops a single element, and more than one issues that many
`lpop` commands in a pipeline. -/
def RedisDB.lpop (st : RStore) (t : String) (count : Nat) : PopResult × RStore :=
  let lcount := RedisDB.lget_count st t
  let c := if count ≤ lcount then count else lcount
  if c = 0 then (PopResult.rnone, st)
  else if 1 < c then
    (PopResult.rlist ((get_list st t).take c), put_list st t ((get_list st t).drop c))
  else
    match get_list st t with
    | [] => (PopResult.rnone, st)
    | x :: rest => (PopResult.relem x, put_list st t rest)

/-- `RedisDB.sget` with `is_pop=True` (`tool_redis.py` lines 197-225):
the requested count is clamped to `scard`; `datas` starts as `[]`, a
single pop appends one member, several pops run in a pipeline. -/
def RedisDB.sget (st : RStore) (t : String) (count : Nat) : List String × RStore :=
  let scard := RedisDB.sget_count st t
  let c := if count ≤ scard then count else scard
  if c = 0 then ([], st)
  else if 1 < c then
    ((get_set st t).take c, put_set st t ((get_set st t).drop c))
  else
    match get_set st t with
    | [] => ([], st)
    | x :: rest => ([x], put_set st t rest)

/-- Model of `sscan`: one full pass (cursor comes back as "0"). -/
def sscan (st : RStore) (t : String) : String × List String :=
  ("0", get_set st t)

/-- Remove the scanned members from the set at `t` (the `srem` pipeline
in the body of `sdelete`). -/
def srem_many (st : RStore) (t : String) (items : List String) : RStore :=
  put_set st t ((get_set st t).filter fun x => !(items.contains x))

/-- The `while cursor != "0"` loop of `RedisDB.sdelete`, fuel-bounded. -/
def sdelete_loop (t : String) : Nat → String → RStore → RStore
  | 0, _, st => st
  | Nat.succ fuel, cursor, st =>
    if cursor ≠ "0" then
      let scan := sscan st t
      sdelete_loop t fuel scan.1 (srem_many st t scan.2)
    else st

/-- `RedisDB.sdelete` (`tool_redis.py` lines 245-259): the cursor is
initialised to `"0"` and the loop runs while `cursor != "0"`; the
method has no `return` statement, so Python returns `None` (the second
component). -/
def RedisDB.sdelete (st : RStore) (t : String) (fuel : Nat) : RStore × Option Unit :=
  (sdelete_loop t fuel "0" st, none)

/-- The `while True` loop of `RedisDB.reconnect` (`tool_redis.py` lines
93-106, `_reconnect` in the source): `outcome k` is whether the `k`-th
`get_connect()` call succeeds (exceptions and falsy pings collapsed to
`false`); on failure the loop sleeps a fixed 2 seconds and retries.
`fuel` bounds how many iterations we unfold; `some r` means the loop
returned `True` after `r` attempts, `none` means it was still running
after `fuel` iterations — the source has no other exit, no attempt
bound and no `ConnectionLost`-style raise. -/
def RedisDB.reconnect_aux (outcome : Nat → Bool) : Nat → Nat → Option Nat
  | 0, _ => none
  | Nat.succ fuel, k => if outcome k then some (k + 1) else RedisDB.reconnect_aux outcome fuel (k + 1)

/-- `RedisDB.reconnect` run from a fresh `retry_count = 0`. -/
def RedisDB.reconnect (outcome : Nat → Bool) (fuel : Nat) : Option Nat :=
  RedisDB.reconnect_aux outcome fuel 0

/-- The possible outcomes of `RabbitMqDB._connect`. -/
inductive ConnectResult where
  | connected (attempt : Nat)
  | connectionError
  | fellThrough
deriving DecidableEq

/-- The `for attempt in range(1, reconnect_attempts + 1)` loop of
`RabbitMqDB._connect` (`tool_rabbitmq.py` lines 53-83): on success the
method returns; on failure it sleeps `reconnect_delay` when attempts
remain and raises `ConnectionError` on the last one.  `a` is the
current attempt number, `r` the remaining iterations; an exhausted
range without any iteration falls through (Python returns `None`). -/
def rabbit_connect_go (outcome : Nat → Bool) (n : Nat) : Nat → Nat → ConnectResult
  | _, 0 => ConnectResult.fellThrough
  | a, Nat.succ r =>
    if outcome a then ConnectResult.connected a
    else if a < n then rabbit_connect_go outcome n (a + 1) r
    else ConnectResult.connectionError

/-- `RabbitMqDB._connect` with `reconnect_attempts = n`. -/
def RabbitMqDB.connect (n : Nat) (outcome : Nat → Bool) : ConnectResult :=
  rabbit_connect_go outcome n 1 n

/-- `RedisDB._reconnect` never returns on the given attempt outcomes:
no number of loop iterations makes it produce a result — the loop is
still running after every finite number of iterations. -/
def reconnect_never_terminates (outcome : Nat → Bool) : Prop :=
  ∀ fuel : Nat, RedisDB.reconnect outcome fuel = none

/-! Helper lemmas. -/

theorem mem_zip_map_snd {α β : Type} (g : α → β) :
    ∀ (l : List α) (p : α × β), p ∈ l.zip (l.map g) → p.2 = g p.1 := by
  intro l
  induction l with
  | nil => intro p hp; cases hp
  | cons x xs ih =>
    intro p hp
    simp only [List.map_cons, List.zip_cons_cons, List.mem_cons] at hp
    rcases hp with h | h
    · rw [h]
    · exact ih p h

theorem lookup_assoc_set {α : Type} (k : String) (v : α) :
    ∀ l : List (String × α), (assoc_set k v l).lookup k = some v := by
  intro l
  induction l with
  | nil => simp [assoc_set, List.lookup]
  | cons p rest ih =>
    by_cases h : p.1 = k
    · simp [assoc_set, h, List.lookup]
    · simp only [assoc_set, if_neg h, List.lookup]
      have : (k == p.1) = false := by
        exact beq_eq_false_iff_ne.mpr fun hk => h hk.symm
      rw [this]
      exact ih

theorem get_list_put_list (st : RStore) (t : String) (l : List String) :
    get_list (put_list st t l) t = l := by
  simp [get_list, put_list, lookup_assoc_set]

theorem get_set_put_set (st : RStore) (t : String) (l : List String) :
    get_set (put_set st t l) t = l := by
  simp [get_set, put_set, lookup_assoc_set]

theorem lookup_strict_isSome (d : MDoc) :
    ∀ ks : List String, (ks.all fun f => (d.lookup f).isSome) = true →
      ∃ c, lookup_strict d ks = Except.ok c := by
  intro ks
  induction ks with
  | nil => intro _; exact ⟨[], rfl⟩
  | cons k rest ih =>
    intro h
    simp only [List.all_cons, Bool.and_eq_true] at h
    obtain ⟨hk, hrest⟩ := h
    obtain ⟨v, hv⟩ := Option.isSome_iff_exists.mp hk
    obtain ⟨c, hc⟩ := ih hrest
    exact ⟨(k, v) :: c, by simp [lookup_strict, hv, hc]⟩

theorem batch_get_condition_isSome (cf : List String) (d : MDoc) (msg : String)
    (h : if cf = [] then (extract_conflict_key msg).isSome = true
         else (cf.all fun f => (d.lookup f).isSome) = true) :
    ∃ c, batch_get_condition cf d msg = Except.ok c := by
  by_cases hcf : cf = []
  · rw [if_pos hcf] at h
    obtain ⟨c, hc⟩ := Option.isSome_iff_exists.mp h
    subst hcf
    exact ⟨c, by simp [batch_get_condition, hc]⟩
  · rw [if_neg hcf] at h
    obtain ⟨c, hc⟩ := lookup_strict_isSome d cf h
    exact ⟨c, by simp [batch_get_condition, hcf, hc]⟩

theorem conflict_count_cons_pos (e : WriteError) (rest : List WriteError)
    (h : e.code = 11000) : conflict_count (e :: rest) = conflict_count rest + 1 := by
  simp [conflict_count, List.countP_cons, h]

theorem conflict_count_cons_neg (e : WriteError) (rest : List WriteError)
    (h : ¬ e.code = 11000) : conflict_count (e :: rest) = conflict_count rest := by
  simp [conflict_count, List.countP_cons, h]

theorem add_batch_loop_count (replace : Bool) (uc : List String) (ucv : List PyVal)
    (cf : List String) :
    ∀ (errs : List WriteError) (count : Int) (effs : List MEffect),
      (∀ e ∈ errs, e.code = 11000 → resolvableB replace uc cf e = true) →
      ∃ effs2, add_batch_loop replace uc ucv cf count effs errs
        = Except.ok (count - (conflict_count errs : Int), effs2) := by
  intro errs
  induction errs with
  | nil =>
    intro count effs _
    exact ⟨effs, by simp [add_batch_loop, conflict_count]⟩
  | cons e rest ih =>
    intro count effs hres
    have hrest : ∀ x ∈ rest, x.code = 11000 → resolvableB replace uc cf x = true :=
      fun x hx => hres x (List.mem_cons_of_mem e hx)
    by_cases hc : e.code = 11000
    · have hcast : count - (conflict_count (e :: rest) : Int)
          = (count - 1) - (conflict_count rest : Int) := by
        rw [conflict_count_cons_pos e rest hc]; push_cast; ring
      have hresE := hres e (List.mem_cons_self e rest) hc
      by_cases huc : uc ≠ []
      · have hcond : if cf = [] then (extract_conflict_key e.errmsg).isSome = true
            else (cf.all fun f => (e.op.lookup f).isSome) = true := by
          have hnot : ¬ (uc = [] ∧ replace = false) := fun hand => huc hand.1
          simp only [resolvableB, if_neg hnot] at hresE
          by_cases hcf : cf = []
          · rw [if_pos hcf]; rw [if_pos hcf] at hresE; exact hresE
          · rw [if_neg hcf]; rw [if_neg hcf] at hresE; exact hresE
        obtain ⟨c, hcnd⟩ := batch_get_condition_isSome cf e.op e.errmsg hcond
        obtain ⟨effs2, h2⟩ := ih (count - 1)
          (effs ++ [MEffect.updateOne c
            (if ucv ≠ [] then uc.zip ucv
             else uc.map fun k => (k, (e.op.lookup k).getD PyVal.vNone))]) hrest
        refine ⟨effs2, ?_⟩
        rw [hcast]
        simpa [add_batch_loop, hc, huc, hcnd] using h2
      · by_cases hrep : replace = true
        · have hcond : if cf = [] then (extract_conflict_key e.errmsg).isSome = true
              else (cf.all fun f => (e.op.lookup f).isSome) = true := by
            have hnot : ¬ (uc = [] ∧ replace = false) := by
              intro hand; rw [hrep] at hand; cases hand.2
            simp only [resolvableB, if_neg hnot] at hresE
            by_cases hcf : cf = []
            · rw [if_pos hcf]; rw [if_pos hcf] at hresE; exact hresE
            · rw [if_neg hcf]; rw [if_neg hcf] at hresE; exact hresE
          obtain ⟨c, hcnd⟩ := batch_get_condition_isSome cf e.op e.errmsg hcond
          obtain ⟨effs2, h2⟩ := ih (count - 1) (effs ++ [MEffect.replaceOne c e.op]) hrest
          refine ⟨effs2, ?_⟩
          rw [hcast]
          simpa [add_batch_loop, hc, huc, hrep, hcnd] using h2
        · have hrep2 : replace = false := by
            cases replace
            · rfl
            · exact absurd rfl hrep
          obtain ⟨effs2, h2⟩ := ih (count - 1) (effs ++ [MEffect.logged e]) hrest
          refine ⟨effs2, ?_⟩
          rw [hcast]
          simpa [add_batch_loop, hc, huc, hrep2] using h2
    · obtain ⟨effs2, h2⟩ := ih count effs hrest
      refine ⟨effs2, ?_⟩
      rw [conflict_count_cons_neg e rest hc]
      simpa [add_batch_loop, hc] using h2

theorem reconnect_aux_all_fail :
    ∀ (fuel k : Nat), RedisDB.reconnect_aux (fun _ => false) fuel k = none := by
  intro fuel
  induction fuel with
  | zero => intro k; rfl
  | succ f ih => intro k; simp [RedisDB.reconnect_aux, ih]

theorem reconnect_aux_first_success (outcome : Nat → Bool) :
    ∀ (k j fuel : Nat), (∀ i, i < k → outcome (j + i) = false) → outcome (j + k) = true →
      k < fuel → RedisDB.reconnect_aux outcome fuel j = some (j + k + 1) := by
  intro k
  induction k with
  | zero =>
    intro j fuel _ hk hfuel
    match fuel, hfuel with
    | Nat.succ f, _ =>
      have hk2 : outcome j = true := hk
      simp [RedisDB.reconnect_aux, hk2]
  | succ k ih =>
    intro j fuel hfail hk hfuel
    match fuel, hfuel with
    | Nat.succ f, hfuel =>
      have h0 : outcome j = false := by
        have := hfail 0 (Nat.succ_pos k)
        simpa using this
      simp only [RedisDB.reconnect_aux, h0, Bool.false_eq_true, if_false]
      have hfail2 : ∀ i, i < k → outcome (j + 1 + i) = false := by
        intro i hi
        have := hfail (i + 1) (Nat.succ_lt_succ hi)
        rwa [show j + (i + 1) = j + 1 + i by omega] at this
      have hk2 : outcome (j + 1 + k) = true := by
        rwa [show j + (k + 1) = j + 1 + k by omega] at hk
      have := ih (j + 1) f hfail2 hk2 (Nat.lt_of_succ_lt_succ hfuel)
      rw [this]
      congr 1
      omega

theorem rabbit_go_all_fail (n : Nat) :
    ∀ (r a : Nat), a + r = n + 1 → 1 ≤ r →
      rabbit_connect_go (fun _ => false) n a r = ConnectResult.connectionError := by
  intro r
  induction r with
  | zero => intro a _ h1; cases h1
  | succ r ih =>
    intro a hsum _
    simp only [rabbit_connect_go, Bool.false_eq_true, if_false]
    by_cases hr : r = 0
    · subst hr
      have : ¬ a < n := by omega
      rw [if_neg this]
    · have ha : a < n := by omega
      rw [if_pos ha]
      exact ih (a + 1) (by omega) (by omega)

/-! The claim theorems. -/

/-- Claim C1: for every non-empty batch of N records of which M raise a
duplicate-unique-key conflict during the unordered bulk insert,
`MongoDB.add_batch` returns N − M as the net new-insert count,
decrementing once per conflicting record whether it was resolved by
update, by replace, or merely logged and skipped; non-conflict write
errors do not abort resolution of the remaining conflicts.  (The
hypothesis `resolvableB` says each conflict's update condition can be
derived, which the source requires to reach the return statement.) -/
theorem C1_add_batch_net_insert_count (datas : List MDoc) (replace : Bool)
    (update_columns : List String) (update_columns_value : List PyVal)
    (condition_fields : List String) (errs : List WriteError)
    (hne : datas ≠ [])
    (hres : ∀ e ∈ errs, e.code = 11000 →
      resolvableB replace update_columns condition_fields e = true) :
    ∃ effs, MongoDB.add_batch datas replace update_columns update_columns_value
        condition_fields (some errs)
      = Except.ok ((datas.length : Int) - (conflict_count errs : Int), effs) := by
  obtain ⟨effs2, h2⟩ := add_batch_loop_count replace update_columns update_columns_value
    condition_fields errs (datas.length : Int) [] hres
  exact ⟨effs2, by simpa [MongoDB.add_batch, hne] using h2⟩

/-- Witness for C1: a batch of 3 records whose bulk insert reports two
duplicate-key conflicts and one unrelated write error (code 121, sitting
between the two conflicts); the call returns 3 − 2 and both conflicts
are resolved by update. -/
theorem C1_add_batch_net_insert_count_witness :
    ([[("id", PyVal.vInt 1)], [("id", PyVal.vInt 2)], [("id", PyVal.vInt 3)]] ≠ ([] : List MDoc))
    ∧ (∀ e ∈ [WriteError.mk 11000 [("id", PyVal.vInt 1)] "m1",
              WriteError.mk 121 [("id", PyVal.vInt 2)] "m2",
              WriteError.mk 11000 [("id", PyVal.vInt 3)] "m3"],
        e.code = 11000 → resolvableB false ["name"] ["id"] e = true)
    ∧ ∃ effs, MongoDB.add_batch
        [[("id", PyVal.vInt 1)], [("id", PyVal.vInt 2)], [("id", PyVal.vInt 3)]]
        false ["name"] [PyVal.vStr "x"] ["id"]
        (some [WriteError.mk 11000 [("id", PyVal.vInt 1)] "m1",
               WriteError.mk 121 [("id", PyVal.vInt 2)] "m2",
               WriteError.mk 11000 [("id", PyVal.vInt 3)] "m3"])
      = Except.ok ((([[("id", PyVal.vInt 1)], [("id", PyVal.vInt 2)], [("id", PyVal.vInt 3)]] : List MDoc).length : Int)
          - (conflict_count [WriteError.mk 11000 [("id", PyVal.vInt 1)] "m1",
               WriteError.mk 121 [("id", PyVal.vInt 2)] "m2",
               WriteError.mk 11000 [("id", PyVal.vInt 3)] "m3"] : Int), effs) :=
  ⟨by decide, by decide,
    C1_add_batch_net_insert_count
      [[("id", PyVal.vInt 1)], [("id", PyVal.vInt 2)], [("id", PyVal.vInt 3)]]
      false ["name"] [PyVal.vStr "x"] ["id"]
      [WriteError.mk 11000 [("id", PyVal.vInt 1)] "m1",
       WriteError.mk 121 [("id", PyVal.vInt 2)] "m2",
       WriteError.mk 11000 [("id", PyVal.vInt 3)] "m3"]
      (by decide) (by decide)⟩

/-- Claim C2 (code bug): running the spec's scenario — insert
`{"id": 1, "name": "a"}`, then `add` again with `{"id": 1, "name": "b"}`
and `update_columns = ["name"]` — does update the stored row to
`{"id": 1, "name": "b"}` via the condition derived from the duplicate-key
message, but the second call returns `1`, not the claimed net-insert
count `0`: `affect_count` is initialised to `1` in `MongoDB.add` and
never decremented on any path. -/
theorem C2_add_scenario_returns_one :
    (MongoDB.add
        (MongoDB.add (MColl.mk ["id"] [])
          [("id", PyVal.vInt 1), ("name", PyVal.vStr "a")] false [] [] false).1
        [("id", PyVal.vInt 1), ("name", PyVal.vStr "b")] false ["name"] [] false).1.docs
      = [[("id", PyVal.vInt 1), ("name", PyVal.vStr "b")]]
    ∧ (MongoDB.add
        (MongoDB.add (MColl.mk ["id"] [])
          [("id", PyVal.vInt 1), ("name", PyVal.vStr "a")] false [] [] false).1
        [("id", PyVal.vInt 1), ("name", PyVal.vStr "b")] false ["name"] [] false).2
      = Except.ok 1 := by
  constructor
  · decide
  · decide

/-- Claim C9: when the single-record upsert executor hits a
duplicate-key error and the update condition cannot be parsed out of the
backend's error text, a `ConflictResolutionError` surfaces and the
collection is returned untouched — no update (first conjunct) and no
replace (second conjunct) is applied against a match-all condition. -/
theorem C9_parse_failure_surfaces_error (coll : MColl) (data : MDoc)
    (update_columns : List String) (update_columns_value : List PyVal)
    (replace insert_ignore : Bool) (errmsg : String)
    (hins : insert_one coll data = Except.error errmsg)
    (hparse : extract_conflict_key errmsg = none) :
    (update_columns ≠ [] →
      MongoDB.add coll data replace update_columns update_columns_value insert_ignore
        = (coll, Except.error PyErr.conflictResolution))
    ∧ MongoDB.add coll data true [] update_columns_value insert_ignore
        = (coll, Except.error PyErr.conflictResolution) := by
  constructor
  · intro huc
    simp [MongoDB.add, hins, huc, hparse]
  · simp [MongoDB.add, hins, hparse]

/-- Witness for C9: a collection whose unique key holds a boolean, so
the backend's `dup key: { flag: true }` payload is not parseable by the
condition derivation; both the update path and the replace path abort
with `ConflictResolutionError` and leave the collection unchanged. -/
theorem C9_parse_failure_surfaces_error_witness :
    insert_one (MColl.mk ["flag"] [[("flag", PyVal.vBool true)]])
        [("flag", PyVal.vBool true), ("name", PyVal.vStr "x")]
      = Except.error (mk_errmsg ["flag"] [("flag", PyVal.vBool true), ("name", PyVal.vStr "x")])
    ∧ extract_conflict_key
        (mk_errmsg ["flag"] [("flag", PyVal.vBool true), ("name", PyVal.vStr "x")]) = none
    ∧ (["name"] ≠ ([] : List String) →
        MongoDB.add (MColl.mk ["flag"] [[("flag", PyVal.vBool true)]])
          [("flag", PyVal.vBool true), ("name", PyVal.vStr "x")] false ["name"] [] false
        = (MColl.mk ["flag"] [[("flag", PyVal.vBool true)]],
           Except.error PyErr.conflictResolution))
    ∧ MongoDB.add (MColl.mk ["flag"] [[("flag", PyVal.vBool true)]])
          [("flag", PyVal.vBool true), ("name", PyVal.vStr "x")] true [] [] false
        = (MColl.mk ["flag"] [[("flag", PyVal.vBool true)]],
           Except.error PyErr.conflictResolution) := by
  refine ⟨by decide, by decide, ?_, ?_⟩
  · exact fun _ => ((C9_parse_failure_surfaces_error
      (MColl.mk ["flag"] [[("flag", PyVal.vBool true)]])
      [("flag", PyVal.vBool true), ("name", PyVal.vStr "x")]
      ["name"] [] false false
      (mk_errmsg ["flag"] [("flag", PyVal.vBool true), ("name", PyVal.vStr "x")])
      (by decide) (by decide)).1 (by decide))
  · exact (C9_parse_failure_surfaces_error
      (MColl.mk ["flag"] [[("flag", PyVal.vBool true)]])
      [("flag", PyVal.vBool true), ("name", PyVal.vStr "x")]
      ["name"] [] true false
      (mk_errmsg ["flag"] [("flag", PyVal.vBool true), ("name", PyVal.vStr "x")])
      (by decide) (by decide)).2

/-- Claim C10: for every table name, `RedisDB.sdelete` performs no
removal and leaves the store unchanged, because the scan loop's
condition (`cursor != "0"`) is false on entry with the cursor
initialised to `"0"`; the method always returns `None`. -/
theorem C10_sdelete_is_noop (st : RStore) (t : String) (fuel : Nat) :
    RedisDB.sdelete st t fuel = (st, none) := by
  cases fuel with
  | zero => rfl
  | succ f => simp [RedisDB.sdelete, sdelete_loop]

/-- Counterexample to claim C3: with `update_columns = ["a", "b"]` and a
shorter `update_columns_value = ["1"]` the builder raises nothing and
does produce SQL text — the explicit values are zipped positionally onto
the columns, silently dropping column `b`. -/
theorem C3_mismatch_counterexample :
    make_batch_sql (fun l => l.dedup) "t" [[("a", PyVal.vInt 1)]] false ["a", "b"] ["1"]
      = some ("insert into `t` (`a`) values (%s) on duplicate key update `a`=1",
              [[PyVal.vInt 1]]) := by
  decide

/-- Claim C3 as amended: no length validation exists.  `make_insert_sql`
has no replacement-value parameter at all, and for every non-empty batch
and non-empty `update_columns`/`update_columns_value` of differing
lengths `make_batch_sql` produces SQL text (no error of any kind), with
the assignment clause pairing columns and values positionally via `zip`,
truncated to the shorter of the two lists. -/
theorem C3_mismatch_truncates (set_order : List String → List String) (table : String)
    (datas : List (List (String × PyVal))) (auto_update : Bool)
    (update_columns update_columns_value : List String)
    (hd : datas ≠ []) (hu : update_columns ≠ []) (hv : update_columns_value ≠ [])
    (hlen : update_columns.length ≠ update_columns_value.length) :
    (make_batch_sql set_order table datas auto_update update_columns update_columns_value).isSome
      = true
    ∧ (update_columns.zip update_columns_value).length
      = min update_columns.length update_columns_value.length := by
  constructor
  · simp [make_batch_sql, hd]
  · exact List.length_zip ..

/-- Witness for C3: the theorem applied to the counterexample's input
(2 columns against 1 value). -/
theorem C3_mismatch_truncates_witness :
    (([[("a", PyVal.vInt 1)]] : List (List (String × PyVal))) ≠ [])
    ∧ (["a", "b"] ≠ ([] : List String)) ∧ (["1"] ≠ ([] : List String))
    ∧ (["a", "b"].length ≠ ["1"].length)
    ∧ ((make_batch_sql (fun l => l.dedup) "t" [[("a", PyVal.vInt 1)]] false
          ["a", "b"] ["1"]).isSome = true
       ∧ (["a", "b"].zip ["1"]).length = min ["a", "b"].length ["1"].length) :=
  ⟨by decide, by decide, by decide, by decide,
    C3_mismatch_truncates (fun l => l.dedup) "t" [[("a", PyVal.vInt 1)]] false
      ["a", "b"] ["1"] (by decide) (by decide) (by decide) (by decide)⟩

/-- Counterexample to claim C4: `RedisDB._reconnect` is a `while True`
loop with no attempt bound — when every `get_connect` attempt fails, no
number of loop iterations makes it return or raise, so it never
terminates with a `ConnectionLost`-style error (the model returns
`none` for "still looping after `fuel` iterations", and there is no
fuel after which anything else happens). -/
theorem C4_unbounded_counterexample :
    reconnect_never_terminates (fun _ => false) := by
  unfold reconnect_never_terminates
  intro fuel
  exact reconnect_aux_all_fail fuel 0

/-- Claim C4 as amended: `RedisDB._reconnect` retries with a fixed
2-second sleep indefinitely, returning `True` on the first successful
`get_connect` (after exactly `k + 1` attempts when attempt `k` is the
first to succeed) and never surfacing a `ConnectionLost`-style error;
a bounded reconnect exists only in `RabbitMqDB._connect`, which raises
`ConnectionError` once its configured `reconnect_attempts` straight
failures are exhausted. -/
theorem C4_bounded_only_in_rabbitmq :
    (∀ (outcome : Nat → Bool) (k : Nat),
      ((List.range k).all fun i => !(outcome i)) = true → outcome k = true →
        ∀ fuel, k < fuel → RedisDB.reconnect outcome fuel = some (k + 1))
    ∧ (∀ n : Nat, 0 < n →
        RabbitMqDB.connect n (fun _ => false) = ConnectResult.connectionError) := by
  constructor
  · intro outcome k hfail hk fuel hfuel
    have hfail2 : ∀ i, i < k → outcome (0 + i) = false := by
      intro i hi
      have := List.all_eq_true.mp hfail i (List.mem_range.mpr hi)
      simpa using this
    have hk2 : outcome (0 + k) = true := by simpa using hk
    have := reconnect_aux_first_success outcome k 0 fuel hfail2 hk2 hfuel
    simpa [RedisDB.reconnect] using this
  · intro n hn
    exact rabbit_go_all_fail n n 1 (by omega) (by omega)

/-- Witness for C4: with connection attempts succeeding first at index
2, `RedisDB._reconnect` returns after 3 attempts; `RabbitMqDB._connect`
with 3 attempts and all failures raises `ConnectionError`. -/
theorem C4_bounded_only_in_rabbitmq_witness :
    ((List.range 2).all fun i => !((fun j => j == 2) i)) = true
    ∧ (fun j => j == 2) 2 = true
    ∧ (2 : Nat) < 10
    ∧ RedisDB.reconnect (fun j => j == 2) 10 = some 3
    ∧ (0 : Nat) < 3
    ∧ RabbitMqDB.connect 3 (fun _ => false) = ConnectResult.connectionError :=
  ⟨by decide, by decide, by decide,
    C4_bounded_only_in_rabbitmq.1 (fun j => j == 2) 2 (by decide) (by decide) 10 (by decide),
    by decide,
    C4_bounded_only_in_rabbitmq.2 3 (by decide)⟩

/-- Counterexample to claim C5: the column list of `make_batch_sql` is
`list(set(keys))`, whose enumeration order is hash-dependent, not
first-seen: reversed-dedup enumeration is an admissible set order, and
on the batch `[{"a": 1}, {"b": 2}]` it yields columns `["b", "a"]`,
not the spec's first-seen order `["a", "b"]`. -/
theorem C5_order_counterexample :
    IsSetOrder (fun l => l.dedup.reverse)
    ∧ batch_keys (fun l => l.dedup.reverse)
        [[("a", PyVal.vInt 1)], [("b", PyVal.vInt 2)]]
      ≠ spec_first_seen_keys [[("a", PyVal.vInt 1)], [("b", PyVal.vInt 2)]] :=
  ⟨fun l => List.reverse_perm l.dedup, by decide⟩

/-- Claim C5 as amended: for every admissible enumeration order of
CPython's `set`, the column set of `make_batch_sql` is exactly the
distinct keys occurring across all records (a permutation of the
first-seen dedup — the *set* is the union, but its *order* is the
hash-dependent enumeration, not necessarily first-seen), and in the
returned row-major bound values every key a record lacks contributes
the null value in that record's row. -/
theorem C5_union_columns_null_fill (set_order : List String → List String)
    (hso : IsSetOrder set_order) (table : String)
    (datas : List (List (String × PyVal))) (auto_update : Bool)
    (update_columns update_columns_value : List String) (hne : datas ≠ []) :
    ∃ sql values,
      make_batch_sql set_order table datas auto_update update_columns update_columns_value
        = some (sql, values)
      ∧ (batch_keys set_order datas).Perm (all_keys datas).dedup
      ∧ values.length = datas.length
      ∧ ∀ p ∈ datas.zip values,
          p.2.length = (batch_keys set_order datas).length
          ∧ ∀ q ∈ (batch_keys set_order datas).zip p.2,
              p.1.lookup q.1 = none → q.2 = PyVal.vNone := by
  refine ⟨batch_sql_text (batch_keys set_order datas) table auto_update
            update_columns update_columns_value,
          datas.map (batch_row (batch_keys set_order datas)), ?_, ?_, ?_, ?_⟩
  · simp only [make_batch_sql, if_neg hne]
  · exact hso (all_keys datas)
  · simp
  · intro p hp
    have hp2 : p.2 = batch_row (batch_keys set_order datas) p.1 :=
      mem_zip_map_snd (batch_row (batch_keys set_order datas)) datas p hp
    constructor
    · rw [hp2]; simp [batch_row]
    · intro q hq hnone
      rw [hp2] at hq
      have hq2 := mem_zip_map_snd
        (fun k => format_sql_value ((p.1.lookup k).getD PyVal.vNone))
        (batch_keys set_order datas) q hq
      rw [hq2]
      simp only []
      rw [hnone]
      rfl

/-- Witness for C5: the dedup (first-seen) enumeration is one admissible
set order; applied to a 2-record batch with disjoint keys, the second
record's row holds null under the first record's key. -/
theorem C5_union_columns_null_fill_witness :
    IsSetOrder (fun l => l.dedup)
    ∧ (([[("a", PyVal.vInt 1)], [("b", PyVal.vInt 2)]] : List (List (String × PyVal))) ≠ [])
    ∧ ∃ sql values,
        make_batch_sql (fun l => l.dedup) "t"
          [[("a", PyVal.vInt 1)], [("b", PyVal.vInt 2)]] false [] []
          = some (sql, values)
        ∧ (batch_keys (fun l => l.dedup)
            [[("a", PyVal.vInt 1)], [("b", PyVal.vInt 2)]]).Perm
            (all_keys [[("a", PyVal.vInt 1)], [("b", PyVal.vInt 2)]]).dedup
        ∧ values.length
            = ([[("a", PyVal.vInt 1)], [("b", PyVal.vInt 2)]] : List (List (String × PyVal))).length
        ∧ ∀ p ∈ ([[("a", PyVal.vInt 1)], [("b", PyVal.vInt 2)]] : List (List (String × PyVal))).zip values,
            p.2.length = (batch_keys (fun l => l.dedup)
              [[("a", PyVal.vInt 1)], [("b", PyVal.vInt 2)]]).length
            ∧ ∀ q ∈ (batch_keys (fun l => l.dedup)
                [[("a", PyVal.vInt 1)], [("b", PyVal.vInt 2)]]).zip p.2,
                p.1.lookup q.1 = none → q.2 = PyVal.vNone :=
  ⟨fun l => List.Perm.refl l.dedup, by decide,
    C5_union_columns_null_fill (fun l => l.dedup) (fun l => List.Perm.refl l.dedup)
      "t" [[("a", PyVal.vInt 1)], [("b", PyVal.vInt 2)]] false [] [] (by decide)⟩

/-- Claim C6: for a container holding K elements and a requested count
with K < count, the pop operations clamp the request to K, return
exactly the K stored elements leaving the container empty, and never
raise for under-supply (`lpop` on lists, first conjunct; `sget` with
`is_pop` on sets, second conjunct — neither has any error path). -/
theorem C6_pop_clamps_to_available (st : RStore) (t : String) (count : Nat) :
    (RedisDB.lget_count st t < count →
      pop_elems (RedisDB.lpop st t count).1 = get_list st t
      ∧ get_list (RedisDB.lpop st t count).2 t = [])
    ∧ (RedisDB.sget_count st t < count →
      (RedisDB.sget st t count).1 = get_set st t
      ∧ get_set (RedisDB.sget st t count).2 t = []) := by
  constructor
  · intro h
    rcases hL : get_list st t with _ | ⟨x, rest⟩
    · have hpos : 0 < count := by simpa [RedisDB.lget_count, hL] using h
      have hnle : ¬ (count ≤ 0) := by omega
      refine ⟨?_, ?_⟩ <;>
        simp [RedisDB.lpop, RedisDB.lget_count, hL, hnle, pop_elems]
    · rcases rest with _ | ⟨y, rest2⟩
      · have h1 : 1 < count := by simpa [RedisDB.lget_count, hL] using h
        have hnle : ¬ (count ≤ 1) := by omega
        refine ⟨?_, ?_⟩
        · simp [RedisDB.lpop, RedisDB.lget_count, hL, hnle, pop_elems]
        · simp [RedisDB.lpop, RedisDB.lget_count, hL, hnle, get_list_put_list]
      · have h2 : rest2.length + 1 + 1 < count := by
          have := h
          simp [RedisDB.lget_count, hL] at this
          omega
        have hnle : ¬ (count ≤ rest2.length + 1 + 1) := by omega
        have hne0 : ¬ (rest2.length + 1 + 1 = 0) := by omega
        have hgt1 : 1 < rest2.length + 1 + 1 := by omega
        refine ⟨?_, ?_⟩
        · simp [RedisDB.lpop, RedisDB.lget_count, hL, hnle, hne0, hgt1, pop_elems]
        · simp [RedisDB.lpop, RedisDB.lget_count, hL, hnle, hne0, hgt1, get_list_put_list]
  · intro h
    rcases hS : get_set st t with _ | ⟨x, rest⟩
    · have hpos : 0 < count := by simpa [RedisDB.sget_count, hS] using h
      have hnle : ¬ (count ≤ 0) := by omega
      refine ⟨?_, ?_⟩ <;>
        simp [RedisDB.sget, RedisDB.sget_count, hS, hnle]
    · rcases rest with _ | ⟨y, rest2⟩
      · have h1 : 1 < count := by simpa [RedisDB.sget_count, hS] using h
        have hnle : ¬ (count ≤ 1) := by omega
        refine ⟨?_, ?_⟩
        · simp [RedisDB.sget, RedisDB.sget_count, hS, hnle]
        · simp [RedisDB.sget, RedisDB.sget_count, hS, hnle, get_set_put_set]
      · have h2 : rest2.length + 1 + 1 < count := by
          have := h
          simp [RedisDB.sget_count, hS] at this
          omega
        have hnle : ¬ (count ≤ rest2.length + 1 + 1) := by omega
        have hne0 : ¬ (rest2.length + 1 + 1 = 0) := by omega
        have hgt1 : 1 < rest2.length + 1 + 1 := by omega
        refine ⟨?_, ?_⟩
        · simp [RedisDB.sget, RedisDB.sget_count, hS, hnle, hne0, hgt1]
        · simp [RedisDB.sget, RedisDB.sget_count, hS, hnle, hne0, hgt1, get_set_put_set]

/-- Witness for C6: a store holding a 2-element list and a 3-element set
under key "k"; a request for 5 returns the 2 and the 3 stored elements
respectively and empties both containers. -/
theorem C6_pop_clamps_to_available_witness :
    RedisDB.lget_count (RStore.mk [("k", ["a", "b"])] [("k", ["u", "v", "w"])]) "k" < 5
    ∧ RedisDB.sget_count (RStore.mk [("k", ["a", "b"])] [("k", ["u", "v", "w"])]) "k" < 5
    ∧ (pop_elems (RedisDB.lpop (RStore.mk [("k", ["a", "b"])] [("k", ["u", "v", "w"])]) "k" 5).1
        = get_list (RStore.mk [("k", ["a", "b"])] [("k", ["u", "v", "w"])]) "k"
      ∧ get_list (RedisDB.lpop (RStore.mk [("k", ["a", "b"])] [("k", ["u", "v", "w"])]) "k" 5).2 "k" = [])
    ∧ ((RedisDB.sget (RStore.mk [("k", ["a", "b"])] [("k", ["u", "v", "w"])]) "k" 5).1
        = get_set (RStore.mk [("k", ["a", "b"])] [("k", ["u", "v", "w"])]) "k"
      ∧ get_set (RedisDB.sget (RStore.mk [("k", ["a", "b"])] [("k", ["u", "v", "w"])]) "k" 5).2 "k" = []) :=
  ⟨by decide, by decide,
    (C6_pop_clamps_to_available (RStore.mk [("k", ["a", "b"])] [("k", ["u", "v", "w"])]) "k" 5).1
      (by decide),
    (C6_pop_clamps_to_available (RStore.mk [("k", ["a", "b"])] [("k", ["u", "v", "w"])]) "k" 5).2
      (by decide)⟩

/-- Counterexample to claim C7: on an empty records list `make_batch_sql`
does not fail with any error — it returns `None` (a value), and the
caller `add_batch_smart` consequently dies unpacking that `None` with a
`TypeError`, not a `ValidationError`. -/
theorem C7_empty_batch_counterexample :
    make_batch_sql (fun l => l.dedup) "t" [] false [] [] = none
    ∧ MysqlDB.add_batch_smart (fun l => l.dedup) "t" [] false [] []
      = Except.error PyErr.typeError := by
  exact ⟨rfl, rfl⟩

/-- Claim C7 as amended: for an empty records list `make_batch_sql`
short-circuits and returns `None` without emitting any statement and
without raising; the caller `add_batch_smart` then fails with a
`TypeError` when unpacking the `None` — no `ValidationError` exists
anywhere on this path. -/
theorem C7_empty_batch_returns_none (set_order : List String → List String)
    (table : String) (auto_update : Bool) (update_columns update_columns_value : List String) :
    make_batch_sql set_order table [] auto_update update_columns update_columns_value = none
    ∧ MysqlDB.add_batch_smart set_order table [] auto_update update_columns update_columns_value
      = Except.error PyErr.typeError := by
  exact ⟨rfl, rfl⟩

/-- Counterexample to claim C8: value coercion is not lossless — the
distinct scalar strings " x" and "x" render to the same SQL fragment,
because `format_sql_value` strips strings before embedding them. -/
theorem C8_lossless_counterexample :
    make_insert_sql "tab" [("a", PyVal.vStr " x")] false [] false
      = make_insert_sql "tab" [("a", PyVal.vStr "x")] false [] false
    ∧ PyVal.vStr " x" ≠ PyVal.vStr "x" := by
  exact ⟨by decide, by decide⟩

/-- Claim C8 as amended: rendering is deterministic, `None` values
render as the SQL null literal, and strings render quoted — but only up
to stripping: strings equal after `strip()` render to identical SQL
(so the coercion is not lossless on strings with surrounding
whitespace; the whole-statement `"None" -> "null"` replacement is a
further source of collisions). -/
theorem C8_coercion_deterministic_not_lossless :
    (∀ s t : String, py_strip s = py_strip t →
      make_insert_sql "tab" [("a", PyVal.vStr s)] false [] false
        = make_insert_sql "tab" [("a", PyVal.vStr t)] false [] false)
    ∧ make_insert_sql "tab" [("a", PyVal.vNone)] false [] false
      = "insert into `tab` (`a`) values (null)"
    ∧ make_insert_sql "tab" [("a", PyVal.vStr "x")] false [] false
      = "insert into `tab` (`a`) values ("
        ++ String.singleton squote ++ "x" ++ String.singleton squote ++ ")" := by
  refine ⟨?_, by decide, by decide⟩
  intro s t hstrip
  simp [make_insert_sql, format_sql_value, hstrip]

/-- Witness for C8: the strings " x" and "x" are equal after stripping,
and the theorem instantiated there yields identical rendered SQL. -/
theorem C8_coercion_deterministic_not_lossless_witness :
    py_strip " x" = py_strip "x"
    ∧ make_insert_sql "tab" [("a", PyVal.vStr " x")] false [] false
      = make_insert_sql "tab" [("a", PyVal.vStr "x")] false [] false :=
  ⟨by decide, C8_coercion_deterministic_not_lossless.1 " x" "x" (by decide)⟩
